import Mathlib

/-!
Verification of the http-status repository: an error catalog
(`src/dist/http.errors.js`) and a status record class (`Status`,
declared in `src/dist/status.d.ts`).

The catalog (`ErrorCode`, `ErrorMessages`) is embedded from the shipped
JavaScript source.  The bodies of the `Status` class methods are not in
the repository snapshot (only the declaration file `status.d.ts` is), so
those operations are modelled from the specification, as marked on each
definition.
-/

/-- Embeds the `ErrorCode` enum of `src/dist/http.errors.js`: a closed
enumeration of 21 named HTTP status codes. -/
inductive ErrorCode where
  | OK
  | CREATED
  | NO_CONTENT
  | BAD_REQUEST
  | UNAUTHORIZED
  | PAYMENT_REQUIRED
  | FORBIDDEN
  | NOT_FOUND
  | METHOD_NOT_ALLOWED
  | REQUEST_TIMEOUT
  | CONFLICT
  | GONE
  | PAYLOAD_TOO_LARGE
  | UNSUPPORTED_MEDIA_TYPE
  | VALIDATION_ERROR
  | TOO_MANY_REQUESTS
  | INTERNAL_SERVER_ERROR
  | NOT_IMPLEMENTED
  | BAD_GATEWAY
  | SERVICE_UNAVAILABLE
  | GATEWAY_TIMEOUT
  deriving DecidableEq, Repr, Fintype

/-- Numeric value of each enum member, as assigned in
`src/dist/http.errors.js` (`ErrorCode[ErrorCode.OK] = 200` and so on). -/
def ErrorCode.toCode : ErrorCode → Int
  | .OK => 200
  | .CREATED => 201
  | .NO_CONTENT => 204
  | .BAD_REQUEST => 400
  | .UNAUTHORIZED => 401
  | .PAYMENT_REQUIRED => 402
  | .FORBIDDEN => 403
  | .NOT_FOUND => 404
  | .METHOD_NOT_ALLOWED => 405
  | .REQUEST_TIMEOUT => 408
  | .CONFLICT => 409
  | .GONE => 410
  | .PAYLOAD_TOO_LARGE => 413
  | .UNSUPPORTED_MEDIA_TYPE => 415
  | .VALIDATION_ERROR => 422
  | .TOO_MANY_REQUESTS => 429
  | .INTERNAL_SERVER_ERROR => 500
  | .NOT_IMPLEMENTED => 501
  | .BAD_GATEWAY => 502
  | .SERVICE_UNAVAILABLE => 503
  | .GATEWAY_TIMEOUT => 504

/-- Embeds the `ErrorMessages` object of `src/dist/http.errors.js` as an
association list from the numeric key of each entry (the enum member
value the JavaScript computed key evaluates to) to its message string,
in source order. -/
def ErrorMessages : List (Int × String) :=
  [ (200, "Request succeeded")
  , (201, "Resource created successfully")
  , (204, "Request succeeded, no content to return")
  , (400, "Bad request. Please check your input.")
  , (401, "Unauthorized. Please log in.")
  , (402, "Payment required.")
  , (403, "Forbidden. You do not have access.")
  , (404, "Resource not found.")
  , (405, "Method not allowed.")
  , (408, "Request timeout.")
  , (409, "Conflict. This already exists.")
  , (410, "Resource is gone and will not be available again.")
  , (413, "Request payload too large.")
  , (415, "Unsupported media type.")
  , (422, "Validation failed.")
  , (429, "Too many requests. Please try again later.")
  , (500, "Internal server error.")
  , (501, "Feature not implemented.")
  , (502, "Bad gateway.")
  , (503, "Service unavailable.")
  , (504, "Gateway timeout.")
  ]

/-- Spec-side catalog: the verbatim default-message contract of spec
section 3, keyed by enumeration member.  Used only to compare the
source table against the wording of the spec. -/
def specDefaultMessage : ErrorCode → String
  | .OK => "Request succeeded"
  | .CREATED => "Resource created successfully"
  | .NO_CONTENT => "Request succeeded, no content to return"
  | .BAD_REQUEST => "Bad request. Please check your input."
  | .UNAUTHORIZED => "Unauthorized. Please log in."
  | .PAYMENT_REQUIRED => "Payment required."
  | .FORBIDDEN => "Forbidden. You do not have access."
  | .NOT_FOUND => "Resource not found."
  | .METHOD_NOT_ALLOWED => "Method not allowed."
  | .REQUEST_TIMEOUT => "Request timeout."
  | .CONFLICT => "Conflict. This already exists."
  | .GONE => "Resource is gone and will not be available again."
  | .PAYLOAD_TOO_LARGE => "Request payload too large."
  | .UNSUPPORTED_MEDIA_TYPE => "Unsupported media type."
  | .VALIDATION_ERROR => "Validation failed."
  | .TOO_MANY_REQUESTS => "Too many requests. Please try again later."
  | .INTERNAL_SERVER_ERROR => "Internal server error."
  | .NOT_IMPLEMENTED => "Feature not implemented."
  | .BAD_GATEWAY => "Bad gateway."
  | .SERVICE_UNAVAILABLE => "Service unavailable."
  | .GATEWAY_TIMEOUT => "Gateway timeout."

/-- Catalog lookup restricted to enumeration members: the message the
table `ErrorMessages` holds for the member's numeric key.  Total over
the enumeration because the table covers every member (proved below);
the default branch can never be reached for an enumeration member. -/
def messageFor (c : ErrorCode) : String :=
  (ErrorMessages.lookup (ErrorCode.toCode c)).getD ""

/-- C1: for every enumeration member the table lookup returns exactly
the literal message of spec section 3; the table keys are pairwise
distinct (exactly one entry per code) and every key is the numeric
value of some enumeration member (no extra entries). -/
theorem errorMessages_matches_spec_catalog :
    (∀ c : ErrorCode,
        ErrorMessages.lookup (ErrorCode.toCode c) = some (specDefaultMessage c))
    ∧ (ErrorMessages.map Prod.fst).Nodup
    ∧ (∀ p ∈ ErrorMessages, ∃ c : ErrorCode, ErrorCode.toCode c = p.1) := by
  decide

/-- Association-list lookup misses every key that is distinct from all
keys of the list. -/
theorem lookup_eq_none_of_forall_ne {β : Type} (l : List (Int × β)) (n : Int)
    (h : ∀ p ∈ l, p.1 ≠ n) : l.lookup n = none := by
  induction l with
  | nil => rfl
  | cons hd tl ih =>
    have hne : (n == hd.1) = false := by
      have := h hd (by simp)
      simp only [beq_eq_false_iff_ne, ne_eq]
      exact fun e => this e.symm
    simp only [List.lookup, hne]
    exact ih fun p hp => h p (by simp [hp])

/-- Every key of the message table is the numeric value of some
enumeration member. -/
theorem errorMessages_keys_from_enum :
    ∀ p ∈ ErrorMessages, ∃ c : ErrorCode, ErrorCode.toCode c = p.1 := by
  decide

/-- C10: for an integer code that is the value of no enumeration member,
the table lookup yields no entry: no exception, no sentinel, no empty
string, just a missing (none) result. -/
theorem errorMessages_lookup_none_for_foreign_codes (n : Int)
    (h : ∀ c : ErrorCode, ErrorCode.toCode c ≠ n) :
    ErrorMessages.lookup n = none := by
  apply lookup_eq_none_of_forall_ne
  intro p hp
  obtain ⟨c, hc⟩ := errorMessages_keys_from_enum p hp
  rw [← hc]
  exact h c

/-- Witness for C10 at the concrete foreign code 123. -/
theorem errorMessages_foreign_lookup_witness :
    (∀ c : ErrorCode, ErrorCode.toCode c ≠ (123 : Int))
    ∧ ErrorMessages.lookup (123 : Int) = none :=
  ⟨by decide, errorMessages_lookup_none_for_foreign_codes 123 (by decide)⟩

/-- The `IStatus` / `Status` field shape of `src/dist/status.d.ts`:
an HTTP status code, a success flag, a message, and an optional payload
(`payload: T | null` in the source; `none` models null/absent). -/
structure Status (T : Type) where
  code : Int
  success : Bool
  message : String
  payload : Option T
  deriving Repr

/-- Modelled from the spec: the body of the `Status` constructor is in
`src/dist/status.js`, which the snapshot does not contain (only the
declaration in `status.d.ts`).  Spec 4.2: the default constructor
produces code 400, success false, the 400 catalog message, no payload. -/
def defaultStatus (T : Type) : Status T :=
  ⟨400, false, "Bad request. Please check your input.", none⟩

/-- Modelled from the spec: the body of the private `set` method is in
the missing `src/dist/status.js`.  Spec operation 1
(`setMessageAndPayload`): update `message` if provided, update `payload`
if provided, leave each unsupplied field at its current value, touch
nothing else. -/
def Status.set {T : Type} (s : Status T)
    (message : Option String) (payload : Option T) : Status T :=
  { s with
    message := message.getD s.message
    payload := match payload with
      | some p => some p
      | none => s.payload }

/-- Modelled from the spec: the body of `successStatus` is in the
missing `src/dist/status.js`.  Spec operation 2 (`markSuccess`): set
code 201 and success true, then apply operation 1 with the options. -/
def Status.successStatus {T : Type} (s : Status T)
    (message : Option String) (payload : Option T) : Status T :=
  Status.set { s with code := 201, success := true } message payload

/-- Modelled from the spec: the body of `errorStatus` is in the missing
`src/dist/status.js`.  Spec operation 3 (`markError`): set the code to
the member's numeric value, success false, the catalog default message,
and reset the payload to absent. -/
def Status.errorStatus {T : Type} (_s : Status T) (c : ErrorCode) : Status T :=
  ⟨ErrorCode.toCode c, false, messageFor c, none⟩

/-- Modelled from the spec: the body of the static factory `success` is
in the missing `src/dist/status.js`.  Spec operation 4: construct a new
record, then behave as `markSuccess` with the message and payload.
Named `successFactory` here because Lean reserves `Status.success` for
the field projection; it embeds the static method `Status.success`. -/
def Status.successFactory {T : Type} (message : String) (payload : T) : Status T :=
  Status.successStatus (defaultStatus T) (some message) (some payload)

/-- Modelled from the spec: the body of the static factory `ERR` is in
the missing `src/dist/status.js`.  Spec operation 5 (`fromErrorCode`):
construct a new record and apply operation 3. -/
def Status.ERR (T : Type) (c : ErrorCode) : Status T :=
  Status.errorStatus (defaultStatus T) c

/-- The `IHttpError` interface of `src/dist/status.d.ts`: an error
carrying an integer status code and a message string. -/
structure IHttpError where
  code : Int
  message : String
  deriving Repr

/-- A generic JavaScript `Error`: the only field the record consumes is
its description string (`message`). -/
structure JsError where
  message : String
  deriving Repr

/-- Modelled from the spec: the body of `error` is in the missing
`src/dist/status.js`.  Spec operation 6 (`adoptCustomError`): success
false, code and message taken verbatim from the structured error, no
validation of the code, payload reset to absent. -/
def Status.error {T : Type} (_s : Status T) (err : IHttpError) : Status T :=
  ⟨err.code, false, err.message, none⟩

/-- Modelled from the spec: the body of `genericError` is in the missing
`src/dist/status.js`.  Spec operation 7 (`adoptGenericFailure`): code
500, success false, the failure's description as message with the
catalog's 500 default as fallback when the description is empty, payload
reset to absent. -/
def Status.genericError {T : Type} (_s : Status T) (err : JsError) : Status T :=
  ⟨500, false,
    if err.message = "" then messageFor ErrorCode.INTERNAL_SERVER_ERROR
    else err.message,
    none⟩

/-- C2: the default constructor always produces exactly code 400,
success false, the message "Bad request. Please check your input.",
and an absent payload. -/
theorem defaultStatus_is_bad_request (T : Type) :
    defaultStatus T =
      ⟨400, false, "Bad request. Please check your input.", none⟩ :=
  rfl

/-- C3: for every message and payload, the static success factory
returns a record in exactly the state code 201, success true, that
message, and that payload. -/
theorem status_success_factory_state (T : Type) (m : String) (p : T) :
    Status.successFactory m p = ⟨201, true, m, some p⟩ :=
  rfl

/-- C4: for every catalog code and every starting state (payload present
or not), `errorStatus` leaves the record in exactly the state with the
code's numeric value, success false, the catalog default message, and an
absent payload; the static factory `ERR` returns a fresh record in that
same state; the catalog default really is the message table's entry.
The quantifier over all members covers OK, CREATED and NO_CONTENT. -/
theorem errorStatus_and_ERR_catalog_state (T : Type) (s : Status T)
    (c : ErrorCode) :
    Status.errorStatus s c = ⟨ErrorCode.toCode c, false, messageFor c, none⟩
    ∧ Status.ERR T c = ⟨ErrorCode.toCode c, false, messageFor c, none⟩
    ∧ ErrorMessages.lookup (ErrorCode.toCode c) = some (messageFor c) := by
  refine ⟨rfl, rfl, ?_⟩
  revert c
  decide

/-- C5: `successStatus` updates `message` only when the options supply a
message and `payload` only when they supply a payload, leaving each
unsupplied field at its current value; the record has no field besides
code, success, message and payload, and those are set to 201 and true.
In particular the two-call overwrite sequence from any starting record
yields exactly code 201, success true, message "a", payload 5. -/
theorem successStatus_frame_and_overwrite :
    (∀ (T : Type) (s : Status T) (m : Option String) (p : Option T),
      (Status.successStatus s m p).code = 201
      ∧ (Status.successStatus s m p).success = true
      ∧ (Status.successStatus s m p).message = m.getD s.message
      ∧ (Status.successStatus s m p).payload =
          (match p with | some v => some v | none => s.payload))
    ∧ (∀ s : Status Nat,
        Status.successStatus (Status.successStatus s (some "a") none)
            none (some 5) =
          ⟨201, true, "a", some 5⟩) :=
  ⟨fun _ _ _ _ => ⟨rfl, rfl, rfl, rfl⟩, fun _ => rfl⟩

/-- C6: for every structured error and every starting state, `error`
leaves the record with success false, the error's code and message taken
verbatim, and an absent payload; the code is arbitrary (any integer),
so no validation against HTTP conventions or the catalog occurs. -/
theorem error_adopts_custom_code_verbatim (T : Type) (s : Status T)
    (err : IHttpError) :
    Status.error s err = ⟨err.code, false, err.message, none⟩ :=
  rfl

/-- C7: for every unstructured failure and every starting state,
`genericError` leaves the record with code 500, success false, an absent
payload, and as message the failure's description when non-empty and the
catalog's 500 default "Internal server error." when empty. -/
theorem genericError_internal_server_fallback (T : Type) (s : Status T)
    (err : JsError) :
    Status.genericError s err =
      ⟨500, false,
        if err.message = "" then "Internal server error." else err.message,
        none⟩
    ∧ messageFor ErrorCode.INTERNAL_SERVER_ERROR = "Internal server error." :=
  ⟨rfl, rfl⟩

/-- C8: the static success factory equals constructing a record with the
default constructor and then calling `successStatus` with the message
and payload supplied; and it is deterministic: two calls with identical
arguments produce structurally equal records. -/
theorem success_factory_refines_markSuccess :
    (∀ (T : Type) (m : String) (p : T),
      Status.successFactory m p =
        Status.successStatus (defaultStatus T) (some m) (some p))
    ∧ (∀ (T : Type) (m : String) (p : T),
        Status.successFactory m p = Status.successFactory m p) :=
  ⟨fun _ _ _ => rfl, fun _ _ _ => rfl⟩

/-- An operation on the status record, for reasoning about sequences of
the four mutating entry points of the `Status` class. -/
inductive Op (T : Type) where
  | succ (message : Option String) (payload : Option T)
  | err (c : ErrorCode)
  | custom (e : IHttpError)
  | generic (e : JsError)

/-- Applies one operation to a record state, dispatching to the
corresponding `Status` method. -/
def applyOp {T : Type} (s : Status T) : Op T → Status T
  | .succ m p => Status.successStatus s m p
  | .err c => Status.errorStatus s c
  | .custom e => Status.error s e
  | .generic e => Status.genericError s e

/-- Runs a finite sequence of operations on a freshly constructed
record. -/
def runOps (T : Type) (ops : List (Op T)) : Status T :=
  ops.foldl applyOp (defaultStatus T)

/-- A valid HTTP status code: an integer in the standard status-code
range 100 to 599. -/
def validCode (n : Int) : Bool :=
  100 ≤ n && n < 600

/-- Well-formed input to an operation: a supplied success message is
non-empty, and a structured custom error carries a valid HTTP code and
a non-empty message.  Catalog codes and generic failures need no
condition (an empty generic description falls back to the catalog). -/
def wellFormedOp {T : Type} : Op T → Bool
  | .succ (some m) _ => !(m == "")
  | .succ none _ => true
  | .err _ => true
  | .custom e => validCode e.code && !(e.message == "")
  | .generic _ => true

/-- The state invariant of C9: the record carries a valid HTTP status
code and a non-empty message. -/
def GoodState {T : Type} (s : Status T) : Prop :=
  validCode s.code = true ∧ s.message ≠ ""

/-- Each single well-formed operation preserves the C9 invariant. -/
theorem applyOp_preserves_goodState {T : Type} (s : Status T) (op : Op T)
    (hwf : wellFormedOp op = true) (h : GoodState s) :
    GoodState (applyOp s op) := by
  obtain ⟨hcode, hmsg⟩ := h
  have hcat : ∀ c : ErrorCode,
      validCode (ErrorCode.toCode c) = true ∧ messageFor c ≠ "" := by
    decide
  cases op with
  | succ m p =>
    cases m with
    | none => exact ⟨rfl, hmsg⟩
    | some x =>
      refine ⟨rfl, ?_⟩
      simp only [wellFormedOp, Bool.not_eq_eq_eq_not, Bool.not_true,
        beq_eq_false_iff_ne, ne_eq] at hwf
      simpa [applyOp, Status.successStatus, Status.set] using hwf
  | err c =>
    exact ⟨(hcat c).1, (hcat c).2⟩
  | custom e =>
    simp only [wellFormedOp, Bool.and_eq_true, Bool.not_eq_eq_eq_not,
      Bool.not_true, beq_eq_false_iff_ne, ne_eq] at hwf
    exact ⟨hwf.1, hwf.2⟩
  | generic e =>
    refine ⟨rfl, ?_⟩
    show (if e.message = "" then messageFor ErrorCode.INTERNAL_SERVER_ERROR
      else e.message) ≠ ""
    by_cases he : e.message = ""
    · simp only [he, if_pos]
      decide
    · rw [if_neg he]
      exact he

/-- The C9 invariant holds after folding any well-formed operation list
over any state that satisfies it. -/
theorem foldl_preserves_goodState {T : Type} (ops : List (Op T)) :
    ∀ s : Status T, GoodState s → (∀ op ∈ ops, wellFormedOp op = true) →
      GoodState (ops.foldl applyOp s) := by
  induction ops with
  | nil => exact fun s hs _ => hs
  | cons hd tl ih =>
    intro s hs hwf
    exact ih (applyOp s hd)
      (applyOp_preserves_goodState s hd (hwf hd (by simp)) hs)
      fun op hop => hwf op (by simp [hop])

/-- C9: after any finite sequence of well-formed operations
(successStatus, errorStatus with a catalog code, error, genericError)
on a freshly constructed record, the record carries a valid HTTP status
code (in the range 100 to 599) and a non-empty message. -/
theorem reachable_states_valid_code_nonempty_message (T : Type)
    (ops : List (Op T)) (h : ∀ op ∈ ops, wellFormedOp op = true) :
    validCode (runOps T ops).code = true ∧ (runOps T ops).message ≠ "" :=
  foldl_preserves_goodState ops (defaultStatus T)
    ⟨rfl, (by decide : ("Bad request. Please check your input." : String) ≠ "")⟩ h

/-- Witness for C9 on a concrete operation sequence: mark success, adopt
a custom 404 error, then adopt a generic failure with an empty
description. -/
theorem reachable_states_valid_witness :
    (∀ op ∈ ([ Op.succ (some "created") (some 7)
             , Op.custom ⟨404, "no such user"⟩
             , Op.generic ⟨""⟩ ] : List (Op Nat)),
        wellFormedOp op = true)
    ∧ (validCode (runOps Nat
          [ Op.succ (some "created") (some 7)
          , Op.custom ⟨404, "no such user"⟩
          , Op.generic ⟨""⟩ ]).code = true
      ∧ (runOps Nat
          [ Op.succ (some "created") (some 7)
          , Op.custom ⟨404, "no such user"⟩
          , Op.generic ⟨""⟩ ]).message ≠ "") :=
  ⟨by decide, reachable_states_valid_code_nonempty_message Nat
    [ Op.succ (some "created") (some 7)
    , Op.custom ⟨404, "no such user"⟩
    , Op.generic ⟨""⟩ ] (by decide)⟩
